import Mathlib

/-!
Verification development for the `key-value` repository: an in-memory
string key-value store (`kvstore.InMemoryStore`) and the gRPC gateway
(`server.KeyValueServer`) that validates requests, dispatches to a
`kvstore.Storer`, and maps store outcomes to protocol responses.

The Go map `map[string]string` guarded by the store's mutex is embedded
as a function `String → Option String`; each operation is translated
directly from the Go source.  Transport-level gRPC status errors are
embedded as the `Except.error` branch of the gateway's result, carrying
the status code and message; normal gRPC responses are `Except.ok`.
-/

/-- The contents of the Go `map[string]string` held by `InMemoryStore`. -/
def StoreMap : Type := String → Option String

namespace InMemoryStore

/-- `InMemoryStore.Get` from `kvstore`: looks the key up; when the key is
absent it returns `("", errors.New "key not found")`, otherwise the stored
value and no error.  The error is embedded as `Option String` (the error
message), `none` meaning the Go `nil` error. -/
def Get (m : StoreMap) (key : String) : String × Option String :=
  match m key with
  | none => ("", some "key not found")
  | some v => (v, none)

/-- `InMemoryStore.Set` from `kvstore`: upserts `store[key] = value` and
returns `nil`.  Result is the new map contents paired with the error. -/
def Set (m : StoreMap) (key value : String) : StoreMap × Option String :=
  (fun k => if k = key then some value else m k, none)

/-- `InMemoryStore.Delete` from `kvstore`: `delete(s.store, key)` and
returns `nil`; a no-op when the key is absent. -/
def Delete (m : StoreMap) (key : String) : StoreMap × Option String :=
  (fun k => if k = key then none else m k, none)

end InMemoryStore

/-- The `kvstore.Storer` Go interface, over an abstract state type `σ`
(the concrete in-memory store uses `σ = StoreMap`; the gateway tests use
stateless mocks, embedded with `σ = Unit`).  Each method returns the new
state together with the Go results: `get` yields `(value, error)`, `set`
and `delete` yield the error, with `none` for Go's `nil`. -/
structure Storer (σ : Type) where
  get : σ → String → σ × String × Option String
  set : σ → String → String → σ × Option String
  delete : σ → String → σ × Option String

/-- The `Storer` instance given by `InMemoryStore` (its `Get` only reads
under `RLock`, so the state is returned unchanged). -/
def inMemoryStorer : Storer StoreMap where
  get := fun m k => (m, InMemoryStore.Get m k)
  set := fun m k v => InMemoryStore.Set m k v
  delete := fun m k => InMemoryStore.Delete m k

/-- gRPC status codes used by `KeyValueServer`. -/
inductive Code where
  | invalidArgument : Code
  | internal : Code
deriving DecidableEq, Repr

/-- `keyvalue.GetResponse`: value, found flag, error text. -/
structure GetResponse where
  value : String
  found : Bool
  error : String
deriving DecidableEq, Repr

/-- `keyvalue.SetResponse`: success flag and error text. -/
structure SetResponse where
  success : Bool
  error : String
deriving DecidableEq, Repr

/-- `keyvalue.DeleteResponse`: success flag and error text. -/
structure DeleteResponse where
  success : Bool
  error : String
deriving DecidableEq, Repr

/-- A transport-level gRPC status error: code and message. -/
def GrpcStatus : Type := Code × String

namespace KeyValueServer

/-- `KeyValueServer.Get` from `server`: rejects an empty key with an
`InvalidArgument` status; otherwise calls `store.Get` and maps the
outcome — the error message `"key not found"` becomes a normal response
with `found = false`, any other store error becomes an `Internal` status,
and a hit returns the value with `found = true`. -/
def Get (st : Storer σ) (s : σ) (key : String) :
    σ × Except GrpcStatus GetResponse :=
  if key = "" then
    (s, Except.error (Code.invalidArgument, "key cannot be empty"))
  else
    match st.get s key with
    | (s', _, some e) =>
        if e = "key not found" then
          (s', Except.ok ⟨"", false, ""⟩)
        else
          (s', Except.error (Code.internal, "service failed to get value: " ++ e))
    | (s', value, none) => (s', Except.ok ⟨value, true, ""⟩)

/-- `KeyValueServer.Set` from `server`: rejects an empty key with an
`InvalidArgument` status; otherwise calls `store.Set` and returns a
normal response — `success = false` carrying the error message when the
store failed, `success = true` otherwise. -/
def Set (st : Storer σ) (s : σ) (key value : String) :
    σ × Except GrpcStatus SetResponse :=
  if key = "" then
    (s, Except.error (Code.invalidArgument, "key cannot be empty"))
  else
    match st.set s key value with
    | (s', some e) => (s', Except.ok ⟨false, e⟩)
    | (s', none) => (s', Except.ok ⟨true, ""⟩)

/-- `KeyValueServer.Delete` from `server`: rejects an empty key with an
`InvalidArgument` status; otherwise calls `store.Delete` and returns a
normal response — `success = false` carrying the error message when the
store failed, `success = true` otherwise. -/
def Delete (st : Storer σ) (s : σ) (key : String) :
    σ × Except GrpcStatus DeleteResponse :=
  if key = "" then
    (s, Except.error (Code.invalidArgument, "key cannot be empty"))
  else
    match st.delete s key with
    | (s', some e) => (s', Except.ok ⟨false, e⟩)
    | (s', none) => (s', Except.ok ⟨true, ""⟩)

end KeyValueServer

/-- The empty map a fresh `NewInMemoryStore` starts with. -/
def emptyStore : StoreMap := fun _ => none

/-- A storer whose every operation fails, mirroring the failing
`MockStorer` configurations in the gateway tests. -/
def failingStorer : Storer Unit where
  get := fun _ _ => ((), "", some "connection failed")
  set := fun _ _ _ => ((), some "storage failed")
  delete := fun _ _ => ((), some "delete failed")

/-- C1: for every non-empty key and value, when the store's `Set`
(resp. `Delete`) returns an error, the gateway's `Set` (resp. `Delete`)
responds with a normal (non-status) gRPC response whose `success` field
is `false` and whose `error` field is the store error's message. -/
theorem set_delete_domain_failure {σ : Type} (st : Storer σ) (s : σ)
    (key value : String) (hk : key ≠ "") :
    (∀ s' e, st.set s key value = (s', some e) →
      KeyValueServer.Set st s key value = (s', Except.ok ⟨false, e⟩)) ∧
    (∀ s' e, st.delete s key = (s', some e) →
      KeyValueServer.Delete st s key = (s', Except.ok ⟨false, e⟩)) := by
  constructor
  · intro s' e h
    simp [KeyValueServer.Set, hk, h]
  · intro s' e h
    simp [KeyValueServer.Delete, hk, h]

/-- C1 witness: against the always-failing storer, `Set` and `Delete`
return structured failures carrying the store messages. -/
theorem set_delete_domain_failure_witness :
    KeyValueServer.Set failingStorer () "test-key" "test-value" =
      ((), Except.ok ⟨false, "storage failed"⟩) ∧
    KeyValueServer.Delete failingStorer () "test-key" =
      ((), Except.ok ⟨false, "delete failed"⟩) :=
  ⟨(set_delete_domain_failure failingStorer () "test-key" "test-value"
      (by decide)).1 () "storage failed" rfl,
   (set_delete_domain_failure failingStorer () "test-key" "test-value"
      (by decide)).2 () "delete failed" rfl⟩

/-- C2: with an empty key, `Get`, `Set` and `Delete` all return the
`InvalidArgument` transport error, the store state is unchanged, and the
result does not depend on the storer at all (the store is not invoked). -/
theorem empty_key_rejected {σ : Type} (st : Storer σ) (s : σ)
    (key value : String) (hk : key = "") :
    KeyValueServer.Get st s key =
      (s, Except.error (Code.invalidArgument, "key cannot be empty")) ∧
    KeyValueServer.Set st s key value =
      (s, Except.error (Code.invalidArgument, "key cannot be empty")) ∧
    KeyValueServer.Delete st s key =
      (s, Except.error (Code.invalidArgument, "key cannot be empty")) := by
  subst hk
  exact ⟨rfl, rfl, rfl⟩

/-- C2 witness: concrete rejection of the empty key on the in-memory
store, leaving the empty store unchanged. -/
theorem empty_key_rejected_witness :
    KeyValueServer.Get inMemoryStorer emptyStore "" =
      (emptyStore, Except.error (Code.invalidArgument, "key cannot be empty")) ∧
    KeyValueServer.Set inMemoryStorer emptyStore "" "x" =
      (emptyStore, Except.error (Code.invalidArgument, "key cannot be empty")) ∧
    KeyValueServer.Delete inMemoryStorer emptyStore "" =
      (emptyStore, Except.error (Code.invalidArgument, "key cannot be empty")) :=
  empty_key_rejected inMemoryStorer emptyStore "" "x" rfl

/-- C3: for a non-empty key absent from the in-memory store, the
gateway's `Get` returns a normal response with the empty value and
`found = false`, and the store state is unchanged. -/
theorem get_absent_not_found (m : StoreMap) (key : String)
    (hk : key ≠ "") (habs : m key = none) :
    KeyValueServer.Get inMemoryStorer m key = (m, Except.ok ⟨"", false, ""⟩) := by
  simp [KeyValueServer.Get, inMemoryStorer, InMemoryStore.Get, hk, habs]

/-- C3 witness: `Get "missing-key"` on the empty store. -/
theorem get_absent_not_found_witness :
    KeyValueServer.Get inMemoryStorer emptyStore "missing-key" =
      (emptyStore, Except.ok ⟨"", false, ""⟩) :=
  get_absent_not_found emptyStore "missing-key" (by decide) rfl

/-- C4: `Set k v1` then `Set k v2` then `Get k` on the in-memory store
yields the value `v2` with no error (the store signals presence by a
`nil` error): the second `Set` overwrites the first. -/
theorem set_set_get_overwrite (m : StoreMap) (k v1 v2 : String) :
    InMemoryStore.Get
      ((InMemoryStore.Set ((InMemoryStore.Set m k v1).1) k v2).1) k =
      (v2, none) := by
  simp [InMemoryStore.Set, InMemoryStore.Get]

/-- C5: deleting an absent key returns no error and leaves the mapping
unchanged, and for every state deleting the same key twice in a row
yields exactly the state and result of the first delete. -/
theorem delete_idempotent (m : StoreMap) (k : String) :
    (m k = none → InMemoryStore.Delete m k = (m, none)) ∧
    InMemoryStore.Delete (InMemoryStore.Delete m k).1 k =
      InMemoryStore.Delete m k := by
  constructor
  · intro h
    unfold InMemoryStore.Delete
    have hm : (fun k' => if k' = k then none else m k') = m := by
      funext k'
      by_cases hk : k' = k
      · simp [hk, h]
      · simp [hk]
    rw [hm]
  · unfold InMemoryStore.Delete
    have hm : (fun k' => if k' = k then none else
        (fun k'' => if k'' = k then none else m k'') k') =
        (fun k' => if k' = k then none else m k') := by
      funext k'
      by_cases hk : k' = k <;> simp [hk]
    rw [hm]

/-- C5 witness: deleting the absent key `"a"` from the empty store is a
no-op with no error, and a second delete agrees with the first. -/
theorem delete_idempotent_witness :
    InMemoryStore.Delete emptyStore "a" = (emptyStore, none) ∧
    InMemoryStore.Delete (InMemoryStore.Delete emptyStore "a").1 "a" =
      InMemoryStore.Delete emptyStore "a" :=
  ⟨(delete_idempotent emptyStore "a").1 rfl,
   (delete_idempotent emptyStore "a").2⟩

/-- C6: for a non-empty key, `Set key ""` through the gateway succeeds,
and the subsequent gateway `Get key` returns the empty value with
`found = true` — the empty string is a stored value distinguished from
absence by the `found` flag. -/
theorem set_empty_value_get_found (m : StoreMap) (key : String)
    (hk : key ≠ "") :
    (KeyValueServer.Set inMemoryStorer m key "").2 = Except.ok ⟨true, ""⟩ ∧
    (KeyValueServer.Get inMemoryStorer
        (KeyValueServer.Set inMemoryStorer m key "").1 key).2 =
      Except.ok ⟨"", true, ""⟩ := by
  constructor
  · simp [KeyValueServer.Set, inMemoryStorer, InMemoryStore.Set, hk]
  · simp [KeyValueServer.Set, KeyValueServer.Get, inMemoryStorer,
      InMemoryStore.Set, InMemoryStore.Get, hk]

/-- C6 witness: `Set "b" ""` then `Get "b"` on the empty store. -/
theorem set_empty_value_get_found_witness :
    (KeyValueServer.Set inMemoryStorer emptyStore "b" "").2 =
      Except.ok ⟨true, ""⟩ ∧
    (KeyValueServer.Get inMemoryStorer
        (KeyValueServer.Set inMemoryStorer emptyStore "b" "").1 "b").2 =
      Except.ok ⟨"", true, ""⟩ :=
  set_empty_value_get_found emptyStore "b" (by decide)

/-- C7 counterexample: the store's own `Get` DOES return an error — on
the empty store, `Get ""` (a well-formed key) yields the error
`"key not found"` instead of a structural presence flag, refuting the
claim that the store's `Get` never returns an error. -/
theorem store_get_errors_counterexample :
    InMemoryStore.Get emptyStore "" = ("", some "key not found") := rfl

/-- C7 amended: the store's `Get` returns an error exactly on absent
keys — always the message `"key not found"` — and never errors on a
present key; absence is signaled via this error value, not a boolean
presence flag. -/
theorem store_get_error_iff_absent (m : StoreMap) (k : String) :
    (m k = none → InMemoryStore.Get m k = ("", some "key not found")) ∧
    (∀ v, m k = some v → InMemoryStore.Get m k = (v, none)) := by
  constructor
  · intro h
    simp [InMemoryStore.Get, h]
  · intro v h
    simp [InMemoryStore.Get, h]

/-- C7 witness: on a one-entry store, `Get` errors on the absent key and
returns the value with no error on the present key. -/
theorem store_get_error_iff_absent_witness :
    InMemoryStore.Get
      (fun k => if k = "existing_key" then some "existing_value" else none)
      "non_existing" = ("", some "key not found") ∧
    InMemoryStore.Get
      (fun k => if k = "existing_key" then some "existing_value" else none)
      "existing_key" = ("existing_value", none) :=
  ⟨(store_get_error_iff_absent
      (fun k => if k = "existing_key" then some "existing_value" else none)
      "non_existing").1 (by decide),
   (store_get_error_iff_absent
      (fun k => if k = "existing_key" then some "existing_value" else none)
      "existing_key").2 "existing_value" (by decide)⟩

/-- C8: for a non-empty key, when the store's `Get` returns an error
whose message differs from `"key not found"`, the gateway's `Get`
responds with the `Internal` transport error (not a not-found result and
not a success response). -/
theorem get_store_error_internal {σ : Type} (st : Storer σ) (s : σ)
    (key : String) (hk : key ≠ "") :
    ∀ s' v e, st.get s key = (s', v, some e) → e ≠ "key not found" →
      KeyValueServer.Get st s key =
        (s', Except.error (Code.internal,
          "service failed to get value: " ++ e)) := by
  intro s' v e h he
  simp [KeyValueServer.Get, hk, h, he]

/-- C8 witness: the failing storer's `"connection failed"` error surfaces
as an `Internal` transport error from the gateway's `Get`. -/
theorem get_store_error_internal_witness :
    KeyValueServer.Get failingStorer () "error-key" =
      ((), Except.error (Code.internal,
        "service failed to get value: " ++ "connection failed")) :=
  get_store_error_internal failingStorer () "error-key" (by decide)
    () "" "connection failed" rfl (by decide)

/-- C10: `Delete k` leaves the binding of any other key `k'` unchanged,
and the store's `get` (through the `Storer` instance) returns the map
unchanged: each operation touches at most the key it names. -/
theorem delete_frame_get_pure (m : StoreMap) (k k' : String)
    (h : k ≠ k') :
    (InMemoryStore.Delete m k).1 k' = m k' ∧
    (inMemoryStorer.get m k).1 = m := by
  constructor
  · show (if k' = k then none else m k') = m k'
    rw [if_neg (Ne.symm h)]
  · rfl

/-- C10 witness: deleting `"key_to_delete"` leaves `"another_key"`
bound, and `get` does not change the map. -/
theorem delete_frame_get_pure_witness :
    (InMemoryStore.Delete (fun _ => some "another_value")
      "key_to_delete").1 "another_key" =
      (fun _ => some "another_value" : StoreMap) "another_key" ∧
    (inMemoryStorer.get (fun _ => some "another_value") "key_to_delete").1 =
      (fun _ => some "another_value" : StoreMap) :=
  delete_frame_get_pure (fun _ => some "another_value")
    "key_to_delete" "another_key" (by decide)
